import Mathlib

/-!
valkey-reconciler: label reconciliation, notification dispatch and configuration.

A shallow embedding of `src/valkey-reconciler/main.go`.

* Go maps `map[string]string` are association lists in which a key occurs at most once when the
  list is built by `Labels.assign`; `Labels.index` is the Go expression `m[k]`.
* The Go standard library and the Kubernetes / sentinel clients are not part of the repository:
  `net.ParseIP`, `net.LookupIP`, the sentinel reply and the success of each API call are
  parameters (`Net`, `Sentinel`, `Cluster`).
* An `IP` is the address a Go `net.IP` value denotes; `IP.Equal` (which identifies the 4-byte and
  the 16-byte form of one address) is equality of addresses.
* The state is the list of the pods the `List` call of a pass returns, in the order it returns
  them. A successful `Update` replaces the stored pod of that name by the object sent; pod names
  are unique in a namespace, so the stored pods after a pass are the listed pods, each replaced,
  at its position, by the object of its successful `Update`.
* `log.Fatalf` ends the process and an index out of range panics: both are explicit outcomes.
-/

namespace ValkeyReconciler

/-! ## Configuration (`getConfig`, `getEnvOrDefault`) -/

def envValkeySentinelPort : String := "VALKEY_SENTINEL_PORT"
def envValkeySentinelHost : String := "VALKEY_SENTINEL_HOST"
def envValkeySentinelPassword : String := "VALKEY_SENTINEL_PASSWORD"
def envValkeyMasterName : String := "VALKEY_MASTER_NAME"
def envPodNamespace : String := "POD_NAMESPACE"
def envMasterPodLabelName : String := "MASTER_POD_LABEL_NAME"
def envMasterPodLabelValue : String := "MASTER_POD_LABEL_VALUE"

/-- The `Config` struct of `main.go`. -/
structure Config where
  SentinelPort : String
  SentinelHost : String
  SentinelPassword : String
  ServiceName : String
  MasterName : String
  Namespace : String
  MasterPodLabelName : String
  MasterPodLabelValue : String
deriving DecidableEq, Repr

/-- The process environment: `none` is an unset variable, `some v` a variable set to `v`. -/
abbrev Environ := String → Option String

/-- Go `os.Getenv`: the value of the variable, the empty string when it is unset. -/
def os.Getenv (env : Environ) (key : String) : String :=
  (env key).getD ""

/-- Source `getEnvOrDefault`: the variable when it is non-empty, the default otherwise. -/
def getEnvOrDefault (env : Environ) (key defaultValue : String) : String :=
  let value := os.Getenv env key
  if value ≠ "" then value else defaultValue

/-- Source `getConfig`: `Except.error` carries the message of the returned Go error. The field
`ServiceName` is never assigned and keeps the zero value. -/
def getConfig (env : Environ) : Except String Config :=
  let config : Config :=
    { SentinelPort := getEnvOrDefault env envValkeySentinelPort "26379"
      SentinelHost := getEnvOrDefault env envValkeySentinelHost ""
      SentinelPassword := getEnvOrDefault env envValkeySentinelPassword ""
      ServiceName := ""
      MasterName := getEnvOrDefault env envValkeyMasterName "myprimary"
      Namespace := getEnvOrDefault env envPodNamespace "default"
      MasterPodLabelName := getEnvOrDefault env envMasterPodLabelName "valkey-master"
      MasterPodLabelValue := getEnvOrDefault env envMasterPodLabelValue "true" }
  if config.SentinelHost = "" then
    Except.error (envValkeySentinelHost ++ " environment variable is required")
  else if config.SentinelPassword = "" then
    Except.error (envValkeySentinelPassword ++ " environment variable is required")
  else
    Except.ok config

/-! ## Pods and their labels -/

/-- A Go `map[string]string`. -/
abbrev Labels := List (String × String)

/-- The entry of key `k`, if the map has one. -/
def Labels.find? : Labels → String → Option String
  | [], _ => none
  | (k', v) :: rest, k => if k' = k then some v else Labels.find? rest k

/-- Go `m[k]`: the value of `k`, the empty string when `k` is absent. -/
def Labels.index (m : Labels) (k : String) : String :=
  (Labels.find? m k).getD ""

/-- Go `m[k] = v`: the entry of `k` is overwritten, or added when `k` is absent. -/
def Labels.assign : Labels → String → String → Labels
  | [], k, v => [(k, v)]
  | (k', v') :: rest, k, v =>
    if k' = k then (k, v) :: rest else (k', v') :: Labels.assign rest k v

/-- The fields of a `corev1.Pod` the reconciler reads or writes. Every pod of a snapshot was
selected by the label `app.kubernetes.io/name=valkey`, so its label map is never nil. -/
structure Pod where
  Name : String
  PodIP : String
  Labels : Labels
deriving DecidableEq, Repr

/-- An IP address (the value of a Go `net.IP`, up to `IP.Equal`). -/
structure IP where
  addr : Nat
deriving DecidableEq, Repr

/-- The functions of Go package `net` the reconciler calls. `ParseIP` returns `none` for Go nil;
`LookupIP` returns the resolved addresses or the error message. -/
structure Net where
  ParseIP : String → Option IP
  LookupIP : String → Except String (List IP)

/-- A mutating request to the orchestration API. `Update` is the full-object replace
`Pods(ns).Update(ctx, &pod, opts)`, which carries the whole pod object; `Patch` is a targeted
patch `Pods(ns).Patch(...)` of one label key of the pod named `name`. -/
inductive ApiCall where
  | Update (ns : String) (pod : Pod)
  | Patch (ns : String) (name : String) (key : String) (value : String)
deriving DecidableEq, Repr

/-- Whether the request is a targeted patch of the single label key `key`. -/
def ApiCall.isPatchOf (key : String) : ApiCall → Bool
  | ApiCall.Update _ _ => false
  | ApiCall.Patch _ _ k _ => decide (k = key)

/-- Whether the request is a full-object replace. -/
def ApiCall.isUpdate : ApiCall → Bool
  | ApiCall.Update _ _ => true
  | ApiCall.Patch _ _ _ _ => false

/-- Go `pod.Labels[k] = v` on the loop's copy of the pod. -/
def Pod.setLabel (pod : Pod) (k v : String) : Pod :=
  { pod with Labels := Labels.assign pod.Labels k v }

/-- Source line 145: the pod carries `LabelKey = LabelValue`. -/
def carriesLabel (config : Config) (pod : Pod) : Bool :=
  decide (Labels.index pod.Labels config.MasterPodLabelName = config.MasterPodLabelValue)

/-- Source line 137: the pod's IP parses and equals the primary IP `masterIp[0]`. -/
def isMaster (net : Net) (masterIp0 : IP) (pod : Pod) : Bool :=
  match net.ParseIP pod.PodIP with
  | none => false
  | some targetIP => decide (targetIP = masterIp0)

/-- The body of the pod loop of `setCurrentMaster` (lines 132-155) for one pod: the pod object
handed to `Update`, or `none` when the body issues no request for this pod. -/
def loopBody (net : Net) (config : Config) (masterIp0 : IP) (pod : Pod) : Option Pod :=
  match net.ParseIP pod.PodIP with
  | none => none
  | some targetIP =>
    if targetIP = masterIp0 then
      some (pod.setLabel config.MasterPodLabelName config.MasterPodLabelValue)
    else if Labels.index pod.Labels config.MasterPodLabelName = config.MasterPodLabelValue then
      some (pod.setLabel config.MasterPodLabelName "")
    else
      none

/-- The pod loop of `setCurrentMaster` (lines 130-156) over the listed pods, from loop index `i`.
`updateOk j` tells whether the `Update` issued for the pod at index `j` succeeds; a failed
`Update` is logged and leaves the stored pod as it was. The result is the sequence of requests
issued, in order, and the stored pods after the loop, in snapshot order. -/
def podLoop (net : Net) (config : Config) (masterIp0 : IP) (updateOk : Nat → Bool) :
    Nat → List Pod → List ApiCall × List Pod
  | _, [] => ([], [])
  | i, pod :: rest =>
    let r := podLoop net config masterIp0 updateOk (i + 1) rest
    match loopBody net config masterIp0 pod with
    | none => (r.1, pod :: r.2)
    | some pod' =>
      (ApiCall.Update config.Namespace pod' :: r.1, (if updateOk i then pod' else pod) :: r.2)

/-- The requests a pass over `pods` issues. -/
def passCalls (net : Net) (config : Config) (masterIp0 : IP) (updateOk : Nat → Bool)
    (pods : List Pod) : List ApiCall :=
  (podLoop net config masterIp0 updateOk 0 pods).1

/-- The stored pods after a pass over `pods`. -/
def passPods (net : Net) (config : Config) (masterIp0 : IP) (updateOk : Nat → Bool)
    (pods : List Pod) : List Pod :=
  (podLoop net config masterIp0 updateOk 0 pods).2

/-- Every write succeeds. -/
def allOk : Nat → Bool := fun _ => true

/-! ## The reconciliation pass (`setCurrentMaster`) -/

/-- The orchestration API as one pass meets it: the error, if any, of `rest.InClusterConfig`, of
`kubernetes.NewForConfig` and of the pod `List` call, and the success of each `Update`. -/
structure Cluster where
  InClusterConfig : Option String
  NewForConfig : Option String
  ListErr : Option String
  updateOk : Nat → Bool

/-- How a call of `setCurrentMaster` ends: `fatal` is `log.Fatalf` (the process exits with
status 1), `panicked` a run-time panic (index out of range), `returned` a normal return with the
requests issued and the stored pods afterwards. -/
inductive Outcome where
  | fatal (msg : String)
  | panicked
  | returned (calls : List ApiCall) (pods : List Pod)
deriving DecidableEq, Repr

/-- Source `setCurrentMaster` (lines 100-158). `pods` are the pods the `List` call returns (the
pods selected by `app.kubernetes.io/name=valkey`). `masterAddress[0]` is evaluated first,
`masterAddress[1]` in the log line after the client is built, and `masterIp[0]` in the loop
body, at the first pod whose IP parses. -/
def setCurrentMaster (net : Net) (k8s : Cluster) (config : Config) (masterAddress : List String)
    (pods : List Pod) : Outcome :=
  match masterAddress with
  | [] => Outcome.panicked
  | host :: portAndRest =>
    match net.LookupIP host with
    | Except.error e => Outcome.fatal ("Failed to lookup master IP: " ++ e)
    | Except.ok masterIp =>
      match k8s.InClusterConfig with
      | some e => Outcome.fatal ("Failed to get Kubernetes config: " ++ e)
      | none =>
        match k8s.NewForConfig with
        | some e => Outcome.fatal ("Failed to create Kubernetes client: " ++ e)
        | none =>
          match portAndRest with
          | [] => Outcome.panicked
          | _ :: _ =>
            match k8s.ListErr with
            | some e => Outcome.fatal ("Failed to list pods: " ++ e)
            | none =>
              match masterIp with
              | [] =>
                if pods.any (fun pod => (net.ParseIP pod.PodIP).isSome) then Outcome.panicked
                else Outcome.returned [] pods
              | masterIp0 :: _ =>
                Outcome.returned (passCalls net config masterIp0 k8s.updateOk pods)
                  (passPods net config masterIp0 k8s.updateOk pods)

/-! ## The monitor query (`getCurrentMasterFromSentinel`) -/

/-- The failover monitor: the pair `(value, err)` that
`GetMasterAddrByName(ctx, name).Result()` returns, `none` being a nil error. -/
structure Sentinel where
  GetMasterAddrByName : String → List String × Option String

/-- Source `getCurrentMasterFromSentinel`. -/
def getCurrentMasterFromSentinel (config : Config) (sentinel : Sentinel) :
    List String × Option String :=
  let r := sentinel.GetMasterAddrByName config.MasterName
  match r.2 with
  | some err => (r.1, some err)
  | none => (r.1, none)

/-- Source `getCurrentMaster`: builds a client for the configured monitor and queries it. -/
def getCurrentMaster (config : Config) (sentinel : Sentinel) : List String × Option String :=
  getCurrentMasterFromSentinel config sentinel

/-! ## Notification handling (`listenForSwitchMasterEvents`, lines 210-235) -/

/-- Go `unicode.IsSpace`: the characters with the Unicode White_Space property. -/
def unicode.IsSpace (c : Char) : Bool :=
  let n := c.toNat
  (decide (0x09 ≤ n) && decide (n ≤ 0x0d)) || n == 0x20 || n == 0x85 || n == 0xA0 ||
    n == 0x1680 || (decide (0x2000 ≤ n) && decide (n ≤ 0x200a)) || n == 0x2028 || n == 0x2029 ||
    n == 0x202f || n == 0x205f || n == 0x3000

/-- The fields of the remaining characters `cs`; `cur` holds, reversed, the characters of the
field being read. -/
def strings.fieldsFrom : List Char → List Char → List String
  | cur, [] => if cur.isEmpty then [] else [String.mk cur.reverse]
  | cur, c :: cs =>
    if unicode.IsSpace c then
      if cur.isEmpty then strings.fieldsFrom [] cs
      else String.mk cur.reverse :: strings.fieldsFrom [] cs
    else strings.fieldsFrom (c :: cur) cs

/-- Go `strings.Fields`: the maximal runs of non-space characters of `s`, in order. -/
def strings.Fields (s : String) : List String :=
  strings.fieldsFrom [] s.data

/-- A message of the pattern subscription (`redis.Message`). -/
structure Message where
  Channel : String
  Payload : String
deriving DecidableEq, Repr

/-- What the watcher does to its collaborators: a query of the monitor for the current primary
(`getCurrentMaster`) or an invocation of the reconciler (`setCurrentMaster`) with an address. -/
inductive Effect where
  | monitorQuery (masterName : String)
  | reconcile (masterAddress : List String)
deriving DecidableEq, Repr

/-- The result of handling one message: the effects, in order, and `next`: `some pods` when
control reaches the next iteration of the message loop (with the stored pods `pods`), `none`
when the process ended inside `setCurrentMaster`. -/
structure Handled where
  effects : List Effect
  next : Option (List Pod)
deriving DecidableEq, Repr

/-- A call `setCurrentMaster(ctx, config, masterAddress)` made from the message loop. -/
def callSetCurrentMaster (net : Net) (k8s : Cluster) (config : Config)
    (masterAddress : List String) (pods : List Pod) : Handled :=
  match setCurrentMaster net k8s config masterAddress pods with
  | Outcome.returned _ pods' => { effects := [Effect.reconcile masterAddress], next := some pods' }
  | _ => { effects := [Effect.reconcile masterAddress], next := none }

/-- The body of the message loop (lines 211-234) for one message. -/
def handleMessage (net : Net) (sentinel : Sentinel) (k8s : Cluster) (config : Config)
    (pods : List Pod) (msg : Message) : Handled :=
  if msg.Channel = "+switch-master" then
    let parts := strings.Fields msg.Payload
    if parts.length ≠ 5 then
      { effects := [], next := some pods }
    else
      callSetCurrentMaster net k8s config ((parts.drop 3).take 2) pods
  else if msg.Channel = "+reboot" then
    let r := getCurrentMaster config sentinel
    match r.2 with
    | some _ => { effects := [Effect.monitorQuery config.MasterName], next := some pods }
    | none =>
      let h := callSetCurrentMaster net k8s config r.1 pods
      { effects := Effect.monitorQuery config.MasterName :: h.effects, next := h.next }
  else
    { effects := [], next := some pods }

/-- The message loop `for msg := range pubsub.Channel(...)` over the messages one connection
delivers: the effects in order, and the stored pods when the channel closes (`none` when the
process ended before). -/
def consumeMessages (net : Net) (sentinel : Sentinel) (k8s : Cluster) (config : Config) :
    List Pod → List Message → List Effect × Option (List Pod)
  | pods, [] => ([], some pods)
  | pods, msg :: rest =>
    let h := handleMessage net sentinel k8s config pods msg
    match h.next with
    | none => (h.effects, none)
    | some pods' =>
      let r := consumeMessages net sentinel k8s config pods' rest
      (h.effects ++ r.1, r.2)

/-- The number of monitor queries among the effects. -/
def queryCount (effects : List Effect) : Nat :=
  (effects.filter (fun e => match e with
    | Effect.monitorQuery _ => true
    | Effect.reconcile _ => false)).length

/-- The addresses the reconciler was invoked with, in order. -/
def reconcileCalls : List Effect → List (List String)
  | [] => []
  | Effect.monitorQuery _ :: rest => reconcileCalls rest
  | Effect.reconcile a :: rest => a :: reconcileCalls rest

/-! ## A resolver for the examples -/

/-- Reads dot-separated decimal octets (no empty octet, no leading zero, none above 255). -/
def parseOctets : List Char → Option Nat → List Nat → Option (List Nat)
  | [], none, _ => none
  | [], some n, acc => some (acc ++ [n])
  | c :: cs, cur, acc =>
    if c.toNat = 46 then
      match cur with
      | none => none
      | some n => parseOctets cs none (acc ++ [n])
    else if 48 ≤ c.toNat ∧ c.toNat ≤ 57 then
      match cur with
      | none => parseOctets cs (some (c.toNat - 48)) acc
      | some n =>
        if n = 0 then none
        else if 255 < n * 10 + (c.toNat - 48) then none
        else parseOctets cs (some (n * 10 + (c.toNat - 48))) acc
    else none

/-- Dotted-quad IPv4 parsing; agrees with Go `net.ParseIP` on every string without a colon. -/
def parseIPv4 (s : String) : Option IP :=
  match parseOctets s.data none [] with
  | some [a, b, c, d] => some { addr := ((a * 256 + b) * 256 + c) * 256 + d }
  | _ => none

/-- A resolver that knows IPv4 literals only: a literal resolves to itself. -/
def literalNet : Net where
  ParseIP := parseIPv4
  LookupIP := fun host =>
    match parseIPv4 host with
    | some ip => Except.ok [ip]
    | none => Except.error ("lookup " ++ host ++ ": no such host")

/-- A cluster whose every call succeeds. -/
def healthyCluster : Cluster where
  InClusterConfig := none
  NewForConfig := none
  ListErr := none
  updateOk := allOk

/-- The configuration of the test `TestSetCurrentMaster`. -/
def testConfig : Config where
  SentinelPort := "26379"
  SentinelHost := "redis-sentinel"
  SentinelPassword := "password123"
  ServiceName := ""
  MasterName := "myprimary"
  Namespace := "default"
  MasterPodLabelName := "vk-master"
  MasterPodLabelValue := "true"

/-- The two pods of the test case "update master pod label" of `TestSetCurrentMaster`. -/
def testPods : List Pod :=
  [ { Name := "valkey-0", PodIP := "10.244.1.5",
      Labels := [("app.kubernetes.io/name", "valkey")] },
    { Name := "valkey-1", PodIP := "10.244.1.6",
      Labels := [("app.kubernetes.io/name", "valkey"), ("vk-master", "true")] } ]

/-- The stored pods after a pass over `testPods` with primary address `10.244.1.5`. -/
def testPodsAfter : List Pod :=
  [ { Name := "valkey-0", PodIP := "10.244.1.5",
      Labels := [("app.kubernetes.io/name", "valkey"), ("vk-master", "true")] },
    { Name := "valkey-1", PodIP := "10.244.1.6",
      Labels := [("app.kubernetes.io/name", "valkey"), ("vk-master", "")] } ]

/-- The stored pod after the loop body ran on `pod` and its write, if any, succeeded. -/
def podAfter (net : Net) (config : Config) (masterIp0 : IP) (pod : Pod) : Pod :=
  (loopBody net config masterIp0 pod).getD pod

/-- A pod that carries the primary label and has no IP in its status (a pod that is not
running reports the empty string). -/
def stalePod : Pod :=
  { Name := "valkey-1", PodIP := "",
    Labels := [("app.kubernetes.io/name", "valkey"), ("vk-master", "true")] }

/-- A snapshot of an unlabelled pod at 10.244.1.5 and `stalePod`. -/
def stalePods : List Pod :=
  [ { Name := "valkey-0", PodIP := "10.244.1.5",
      Labels := [("app.kubernetes.io/name", "valkey")] },
    stalePod ]

/-- No two pods of the snapshot whose IP parses have the same address. -/
def noDuplicateIPs (net : Net) (pods : List Pod) : Prop :=
  (pods.filterMap (fun p => net.ParseIP p.PodIP)).Nodup

/-- A monitor that answers every query with the address `10.244.1.5:6379`. -/
def testSentinel : Sentinel where
  GetMasterAddrByName := fun _ => (["10.244.1.5", "6379"], none)

/-- The environment of the test case "valid configuration with all required env vars". -/
def testEnviron : Environ := fun key =>
  if key = "VALKEY_SENTINEL_HOST" then some "redis-sentinel"
  else if key = "VALKEY_SENTINEL_PASSWORD" then some "password123"
  else none

/-- The variable is unset or set to the empty string. -/
def unsetOrEmpty (env : Environ) (key : String) : Prop :=
  env key = none ∨ env key = some ""

/-- The value `val` is the variable `key` when that variable is set to a non-empty string, and
the default `dflt` when it is unset or empty. -/
def isSettingOf (env : Environ) (key dflt val : String) : Prop :=
  (∀ v, env key = some v → v ≠ "" → val = v) ∧ (unsetOrEmpty env key → val = dflt)

/-- The requests issued to the orchestration API by the time `setCurrentMaster` ends. Every
`log.Fatalf` precedes the pod loop, and so does the panic on a short address; the panic on an
empty `masterIp` happens at the first pod whose IP parses, before which the loop only skips
pods. So none of these outcomes follows a request. -/
def Outcome.calls : Outcome → List ApiCall
  | Outcome.fatal _ => []
  | Outcome.panicked => []
  | Outcome.returned calls _ => calls

/-- Whether the call ended the process (`log.Fatalf` or a panic) instead of returning. -/
def Outcome.endsProcess : Outcome → Bool
  | Outcome.fatal _ => true
  | Outcome.panicked => true
  | Outcome.returned _ _ => false

/-- A monitor whose successful reply has a host and no port. -/
def hostOnlySentinel : Sentinel where
  GetMasterAddrByName := fun _ => (["10.244.1.5"], none)

/-- A resolver in which the name `valkey-primary` has the two addresses 10.244.1.5 and
10.244.1.6, in this order; any other host is resolved as by `literalNet`. -/
def twoAddressNet : Net where
  ParseIP := parseIPv4
  LookupIP := fun host =>
    if host = "valkey-primary" then
      Except.ok [{ addr := 183763205 }, { addr := 183763206 }]
    else literalNet.LookupIP host

/-- The address has the host and the port element `setCurrentMaster` reads
(`masterAddress[0]` and `masterAddress[1]`). -/
def hasHostAndPort (masterAddress : List String) : Bool :=
  decide (2 ≤ masterAddress.length)

/-! ## Lemmas on label maps -/

theorem Labels.find?_assign_same (m : Labels) (k v : String) :
    Labels.find? (Labels.assign m k v) k = some v := by
  induction m with
  | nil => simp [Labels.assign, Labels.find?]
  | cons e rest ih =>
    obtain ⟨k', v'⟩ := e
    by_cases h : k' = k
    · simp [Labels.assign, Labels.find?, h]
    · simp [Labels.assign, Labels.find?, h, ih]

theorem Labels.find?_assign_other (m : Labels) (k v k0 : String) (h0 : k0 ≠ k) :
    Labels.find? (Labels.assign m k v) k0 = Labels.find? m k0 := by
  induction m with
  | nil =>
    have h1 : ¬ k = k0 := fun e => h0 e.symm
    simp [Labels.assign, Labels.find?, h1]
  | cons e rest ih =>
    obtain ⟨k', v'⟩ := e
    by_cases h : k' = k
    · have h1 : ¬ k = k0 := fun e => h0 e.symm
      have h2 : ¬ k' = k0 := fun e => h1 (h ▸ e)
      simp [Labels.assign, Labels.find?, h, h1]
    · simp [Labels.assign, Labels.find?, h, ih]

theorem Labels.index_assign_same (m : Labels) (k v : String) :
    Labels.index (Labels.assign m k v) k = v := by
  simp [Labels.index, Labels.find?_assign_same]

theorem Labels.assign_assign (m : Labels) (k v w : String) :
    Labels.assign (Labels.assign m k v) k w = Labels.assign m k w := by
  induction m with
  | nil => simp [Labels.assign]
  | cons e rest ih =>
    obtain ⟨k', v'⟩ := e
    by_cases h : k' = k
    · simp [Labels.assign, h]
    · simp [Labels.assign, h, ih]

/-! ## Lemmas on the pod loop -/

theorem podLoop_calls (net : Net) (config : Config) (ip : IP) (updateOk : Nat → Bool)
    (i : Nat) (pods : List Pod) :
    (podLoop net config ip updateOk i pods).1 =
      pods.filterMap (fun p => (loopBody net config ip p).map (ApiCall.Update config.Namespace)) := by
  induction pods generalizing i with
  | nil => simp [podLoop]
  | cons p rest ih =>
    cases h : loopBody net config ip p <;> simp [podLoop, h, ih]

theorem podLoop_pods_allOk (net : Net) (config : Config) (ip : IP) (i : Nat) (pods : List Pod) :
    (podLoop net config ip allOk i pods).2 = pods.map (podAfter net config ip) := by
  induction pods generalizing i with
  | nil => simp [podLoop]
  | cons p rest ih =>
    cases h : loopBody net config ip p <;> simp [podLoop, podAfter, allOk, h, ih]

/-- When the loop body writes each pod of the list back as it is, the stored pods after the loop
are the pods before it, whichever writes fail. -/
theorem podLoop_pods_fixed (net : Net) (config : Config) (ip : IP) (updateOk : Nat → Bool)
    (i : Nat) (l : List Pod)
    (h : ∀ q ∈ l, ∀ q', loopBody net config ip q = some q' → q' = q) :
    (podLoop net config ip updateOk i l).2 = l := by
  induction l generalizing i with
  | nil => rfl
  | cons p rest ih =>
    have hrest := ih (i + 1) (fun q hq => h q (List.mem_cons_of_mem p hq))
    cases hb : loopBody net config ip p with
    | none => simp only [podLoop, hb, hrest]
    | some p' =>
      have hp : p' = p := h p (List.mem_cons_self p rest) p' hb
      simp only [podLoop, hb, hrest, hp, ite_self]

theorem loopBody_master (net : Net) (config : Config) (ip : IP) (p : Pod)
    (h : isMaster net ip p = true) :
    loopBody net config ip p =
      some (p.setLabel config.MasterPodLabelName config.MasterPodLabelValue) := by
  unfold isMaster at h
  unfold loopBody
  cases hp : net.ParseIP p.PodIP with
  | none => simp [hp] at h
  | some a =>
    have ha : a = ip := by simpa [hp] using h
    simp [ha]

theorem loopBody_not_master (net : Net) (config : Config) (ip : IP) (p : Pod)
    (h : isMaster net ip p = false) (hp : (net.ParseIP p.PodIP).isSome = true) :
    loopBody net config ip p =
      if carriesLabel config p = true then some (p.setLabel config.MasterPodLabelName "")
      else none := by
  unfold isMaster at h
  unfold loopBody carriesLabel
  cases hq : net.ParseIP p.PodIP with
  | none => simp [hq] at hp
  | some a =>
    have ha : ¬ a = ip := by simpa [hq] using h
    simp [ha]

theorem loopBody_unparsed (net : Net) (config : Config) (ip : IP) (p : Pod)
    (hp : net.ParseIP p.PodIP = none) : loopBody net config ip p = none := by
  simp [loopBody, hp]

theorem podAfter_PodIP (net : Net) (config : Config) (ip : IP) (p : Pod) :
    (podAfter net config ip p).PodIP = p.PodIP := by
  unfold podAfter loopBody
  cases net.ParseIP p.PodIP with
  | none => rfl
  | some a =>
    by_cases h1 : a = ip
    · simp [h1, Pod.setLabel]
    · by_cases h2 :
          Labels.index p.Labels config.MasterPodLabelName = config.MasterPodLabelValue
      · simp [h1, h2, Pod.setLabel]
      · simp [h1, h2]

theorem podAfter_Name (net : Net) (config : Config) (ip : IP) (p : Pod) :
    (podAfter net config ip p).Name = p.Name := by
  unfold podAfter loopBody
  cases net.ParseIP p.PodIP with
  | none => rfl
  | some a =>
    by_cases h1 : a = ip
    · simp [h1, Pod.setLabel]
    · by_cases h2 :
          Labels.index p.Labels config.MasterPodLabelName = config.MasterPodLabelValue
      · simp [h1, h2, Pod.setLabel]
      · simp [h1, h2]

theorem isMaster_podAfter (net : Net) (config : Config) (ip : IP) (p : Pod) :
    isMaster net ip (podAfter net config ip p) = isMaster net ip p := by
  simp [isMaster, podAfter_PodIP]

theorem podAfter_master (net : Net) (config : Config) (ip : IP) (p : Pod)
    (h : isMaster net ip p = true) :
    podAfter net config ip p =
      p.setLabel config.MasterPodLabelName config.MasterPodLabelValue := by
  simp [podAfter, loopBody_master net config ip p h]

theorem carriesLabel_setLabel (config : Config) (p : Pod) :
    carriesLabel config (p.setLabel config.MasterPodLabelName config.MasterPodLabelValue)
      = true := by
  simp [carriesLabel, Pod.setLabel, Labels.index_assign_same]

theorem carriesLabel_clear (config : Config) (p : Pod)
    (hval : config.MasterPodLabelValue ≠ "") :
    carriesLabel config (p.setLabel config.MasterPodLabelName "") = false := by
  have h : ¬ "" = config.MasterPodLabelValue := fun e => hval e.symm
  simp [carriesLabel, Pod.setLabel, Labels.index_assign_same, h]

/-- After a pass whose writes succeed, a pod whose IP parses carries the label exactly when its
IP is the primary IP (for a non-empty label value). -/
theorem carriesLabel_podAfter (net : Net) (config : Config) (ip : IP) (p : Pod)
    (hval : config.MasterPodLabelValue ≠ "") (hp : (net.ParseIP p.PodIP).isSome = true) :
    carriesLabel config (podAfter net config ip p) = isMaster net ip p := by
  cases hm : isMaster net ip p with
  | true => rw [podAfter_master net config ip p hm, carriesLabel_setLabel]
  | false =>
    unfold podAfter
    rw [loopBody_not_master net config ip p hm hp]
    cases hc : carriesLabel config p with
    | true => simpa using carriesLabel_clear config p hval
    | false => simpa using hc

theorem podAfter_unparsed (net : Net) (config : Config) (ip : IP) (p : Pod)
    (hp : net.ParseIP p.PodIP = none) : podAfter net config ip p = p := by
  simp [podAfter, loopBody_unparsed net config ip p hp]

/-- The loop body on a pod a successful pass already visited: a pod whose IP is the primary IP
is written again, unchanged; no other pod is written. -/
theorem loopBody_podAfter (net : Net) (config : Config) (ip : IP) (p : Pod)
    (hval : config.MasterPodLabelValue ≠ "") :
    loopBody net config ip (podAfter net config ip p) =
      if isMaster net ip p = true then some (podAfter net config ip p) else none := by
  cases hp : net.ParseIP p.PodIP with
  | none =>
    have hm : isMaster net ip p = false := by simp [isMaster, hp]
    rw [podAfter_unparsed net config ip p hp, loopBody_unparsed net config ip p hp]
    simp [hm]
  | some a =>
    have hs : (net.ParseIP p.PodIP).isSome = true := by simp [hp]
    cases hm : isMaster net ip p with
    | true =>
      have hm' : isMaster net ip (podAfter net config ip p) = true := by
        rw [isMaster_podAfter]; exact hm
      rw [loopBody_master net config ip _ hm', podAfter_master net config ip p hm]
      simp [Pod.setLabel, Labels.assign_assign]
    | false =>
      have hm' : isMaster net ip (podAfter net config ip p) = false := by
        rw [isMaster_podAfter]; exact hm
      have hs' : (net.ParseIP (podAfter net config ip p).PodIP).isSome = true := by
        rw [podAfter_PodIP]; exact hs
      rw [loopBody_not_master net config ip _ hm' hs',
        carriesLabel_podAfter net config ip p hval hs, hm]
      simp

theorem podAfter_podAfter (net : Net) (config : Config) (ip : IP) (p : Pod)
    (hval : config.MasterPodLabelValue ≠ "") :
    podAfter net config ip (podAfter net config ip p) = podAfter net config ip p := by
  have h := loopBody_podAfter net config ip p hval
  unfold podAfter at h ⊢
  rw [h]
  by_cases hm : isMaster net ip p = true <;> simp [hm]

theorem passPods_allOk (net : Net) (config : Config) (ip : IP) (pods : List Pod) :
    passPods net config ip allOk pods = pods.map (podAfter net config ip) :=
  podLoop_pods_allOk net config ip 0 pods

theorem passCalls_eq (net : Net) (config : Config) (ip : IP) (updateOk : Nat → Bool)
    (pods : List Pod) :
    passCalls net config ip updateOk pods =
      pods.filterMap (fun p => (loopBody net config ip p).map (ApiCall.Update config.Namespace)) :=
  podLoop_calls net config ip updateOk 0 pods

/-! ## C1: the second of two passes -/

/-- C1 (counterexample): on the two pods of `TestSetCurrentMaster`, a first pass with primary
address 10.244.1.5 issues two Updates; the second pass, run on the pods the first produced,
issues an Update again for the pod that is the primary, so it does not issue zero mutations. -/
theorem second_pass_updates_master_again :
    setCurrentMaster literalNet healthyCluster testConfig ["10.244.1.5", "6379"] testPods =
      Outcome.returned
        [ApiCall.Update "default"
          { Name := "valkey-0", PodIP := "10.244.1.5",
            Labels := [("app.kubernetes.io/name", "valkey"), ("vk-master", "true")] },
         ApiCall.Update "default"
          { Name := "valkey-1", PodIP := "10.244.1.6",
            Labels := [("app.kubernetes.io/name", "valkey"), ("vk-master", "")] }]
        testPodsAfter ∧
    setCurrentMaster literalNet healthyCluster testConfig ["10.244.1.5", "6379"] testPodsAfter =
      Outcome.returned
        [ApiCall.Update "default"
          { Name := "valkey-0", PodIP := "10.244.1.5",
            Labels := [("app.kubernetes.io/name", "valkey"), ("vk-master", "true")] }]
        testPodsAfter := by
  decide

/-- C1 (amended): for a non-empty label value, when the pass is run twice in succession, the
second time on the pods the first run produced (every write of the first run succeeding), the
second run changes no pod, whether its writes succeed or not, and issues no clearing write: its
requests are exactly one Update per pod whose IP is the primary IP, each carrying that pod as
it already is. Hence the second run issues zero mutations exactly when no pod of the snapshot
has the primary IP. -/
theorem second_pass_changes_nothing (net : Net) (config : Config) (ip : IP)
    (updateOk : Nat → Bool) (pods : List Pod) (hval : config.MasterPodLabelValue ≠ "") :
    passPods net config ip updateOk (passPods net config ip allOk pods) =
        passPods net config ip allOk pods ∧
    passCalls net config ip updateOk (passPods net config ip allOk pods) =
        ((passPods net config ip allOk pods).filter (fun q => isMaster net ip q)).map
          (ApiCall.Update config.Namespace) ∧
    (passCalls net config ip updateOk (passPods net config ip allOk pods) = [] ↔
        ∀ p ∈ pods, isMaster net ip p = false) := by
  have hcalls : passCalls net config ip updateOk (passPods net config ip allOk pods) =
      ((passPods net config ip allOk pods).filter (fun q => isMaster net ip q)).map
        (ApiCall.Update config.Namespace) := by
    rw [passCalls_eq, passPods_allOk]
    induction pods with
    | nil => rfl
    | cons p rest ih =>
      simp only [List.map_cons, List.filterMap_cons, List.filter_cons]
      rw [loopBody_podAfter net config ip p hval, isMaster_podAfter]
      cases hm : isMaster net ip p <;> simp [ih]
  refine ⟨?_, hcalls, ?_⟩
  · rw [passPods_allOk]
    apply podLoop_pods_fixed
    intro q hq q' hb
    obtain ⟨p, _, rfl⟩ := List.mem_map.mp hq
    rw [loopBody_podAfter net config ip p hval] at hb
    by_cases hm : isMaster net ip p = true
    · rw [if_pos hm] at hb
      exact (Option.some.inj hb).symm
    · rw [if_neg hm] at hb
      cases hb
  · rw [hcalls, passPods_allOk]
    simp only [List.map_eq_nil_iff, List.filter_eq_nil_iff, List.mem_map]
    constructor
    · intro h p hp
      have := h (podAfter net config ip p) ⟨p, hp, rfl⟩
      rw [isMaster_podAfter] at this
      simpa using this
    · rintro h q ⟨p, hp, rfl⟩
      rw [isMaster_podAfter]
      simp [h p hp]

/-- C1 (amended), at the pods of `TestSetCurrentMaster`: the second pass leaves the pods as the
first pass produced them and issues the one Update of the primary pod. -/
theorem second_pass_changes_nothing_witness :
    testConfig.MasterPodLabelValue ≠ "" ∧
    passPods literalNet testConfig { addr := 183763205 } allOk
        (passPods literalNet testConfig { addr := 183763205 } allOk testPods) =
      passPods literalNet testConfig { addr := 183763205 } allOk testPods ∧
    passCalls literalNet testConfig { addr := 183763205 } allOk
        (passPods literalNet testConfig { addr := 183763205 } allOk testPods) =
      ((passPods literalNet testConfig { addr := 183763205 } allOk testPods).filter
        (fun q => isMaster literalNet { addr := 183763205 } q)).map
          (ApiCall.Update testConfig.Namespace) :=
  ⟨by decide,
    (second_pass_changes_nothing literalNet testConfig { addr := 183763205 } allOk testPods
      (by decide)).1,
    (second_pass_changes_nothing literalNet testConfig { addr := 183763205 } allOk testPods
      (by decide)).2.1⟩

/-- When the lookup, the client set-up and the pod listing succeed and the address has a host
and a port, `setCurrentMaster` returns after running the pod loop against the first resolved
address. -/
theorem setCurrentMaster_returned (net : Net) (k8s : Cluster) (config : Config)
    (host port : String) (more : List String) (ip : IP) (ips : List IP) (pods : List Pod)
    (hl : net.LookupIP host = Except.ok (ip :: ips)) (h1 : k8s.InClusterConfig = none)
    (h2 : k8s.NewForConfig = none) (h3 : k8s.ListErr = none) :
    setCurrentMaster net k8s config (host :: port :: more) pods =
      Outcome.returned (passCalls net config ip k8s.updateOk pods)
        (passPods net config ip k8s.updateOk pods) := by
  simp [setCurrentMaster, hl, h1, h2, h3]

theorem forall₂_map_self {α : Type} (R : α → α → Prop) (f : α → α) (l : List α)
    (h : ∀ a ∈ l, R a (f a)) : List.Forall₂ R l (l.map f) := by
  induction l with
  | nil => exact List.Forall₂.nil
  | cons a rest ih =>
    exact List.Forall₂.cons (h a (List.mem_cons_self a rest))
      (ih (fun b hb => h b (List.mem_cons_of_mem a hb)))

/-! ## C2: the pods at the primary IP are labelled -/

/-- C2: after a pass in which every write succeeds, every pod of the snapshot whose IP is the
primary IP carries `LabelKey = LabelValue` (the pod after the pass is paired with the pod of the
snapshot at the same position, and keeps its name and IP); so every pod that has the primary IP
after the pass carries the label, however many there are. -/
theorem master_pods_carry_label (net : Net) (config : Config) (ip : IP) (pods : List Pod) :
    List.Forall₂
        (fun p q => q.Name = p.Name ∧ q.PodIP = p.PodIP ∧
          (isMaster net ip p = true → carriesLabel config q = true))
        pods (passPods net config ip allOk pods) ∧
    ∀ q ∈ passPods net config ip allOk pods,
      isMaster net ip q = true → carriesLabel config q = true := by
  rw [passPods_allOk]
  constructor
  · apply forall₂_map_self
    intro p _
    refine ⟨podAfter_Name net config ip p, podAfter_PodIP net config ip p, ?_⟩
    intro hm
    rw [podAfter_master net config ip p hm]
    exact carriesLabel_setLabel config p
  · intro q hq hm
    obtain ⟨p, _, rfl⟩ := List.mem_map.mp hq
    rw [isMaster_podAfter] at hm
    rw [podAfter_master net config ip p hm]
    exact carriesLabel_setLabel config p

/-! ## C3: at most one labelled pod -/

/-- C3 (counterexample): a snapshot without duplicate IPs (as strings and as parsed addresses)
in which a pod without a parseable IP carries the label. The pass with primary address
10.244.1.5 labels the pod at that address and skips the other pod, so two pods carry the label
afterwards, one of which does not have the primary IP. -/
theorem two_pods_labelled_after_pass :
    (stalePods.map (fun p => p.PodIP)).Nodup ∧
    noDuplicateIPs literalNet stalePods ∧
    setCurrentMaster literalNet healthyCluster testConfig ["10.244.1.5", "6379"] stalePods =
      Outcome.returned
        [ApiCall.Update "default"
          { Name := "valkey-0", PodIP := "10.244.1.5",
            Labels := [("app.kubernetes.io/name", "valkey"), ("vk-master", "true")] }]
        [{ Name := "valkey-0", PodIP := "10.244.1.5",
            Labels := [("app.kubernetes.io/name", "valkey"), ("vk-master", "true")] },
          stalePod] ∧
    ((passPods literalNet testConfig { addr := 183763205 } allOk stalePods).filter
      (fun q => carriesLabel testConfig q)).length = 2 := by
  unfold noDuplicateIPs
  decide

theorem labelled_parsed_podAfter (net : Net) (config : Config) (ip : IP) (p : Pod)
    (hval : config.MasterPodLabelValue ≠ "") :
    (carriesLabel config (podAfter net config ip p) &&
        (net.ParseIP (podAfter net config ip p).PodIP).isSome) = isMaster net ip p := by
  rw [podAfter_PodIP]
  cases hp : net.ParseIP p.PodIP with
  | none => simp [isMaster, hp]
  | some a =>
    have hs : (net.ParseIP p.PodIP).isSome = true := by simp [hp]
    rw [carriesLabel_podAfter net config ip p hval hs]
    simp

theorem length_filter_isMaster_le_one (net : Net) (ip : IP) (pods : List Pod)
    (hnodup : noDuplicateIPs net pods) :
    (pods.filter (fun p => isMaster net ip p)).length ≤ 1 := by
  have hcount : (pods.filter (fun p => isMaster net ip p)).length =
      (pods.filterMap (fun p => net.ParseIP p.PodIP)).count ip := by
    clear hnodup
    induction pods with
    | nil => rfl
    | cons p rest ih =>
      simp only [List.filter_cons, List.filterMap_cons]
      cases hp : net.ParseIP p.PodIP with
      | none =>
        have hm : isMaster net ip p = false := by simp [isMaster, hp]
        simpa [hm] using ih
      | some a =>
        by_cases ha : a = ip
        · have hm : isMaster net ip p = true := by simp [isMaster, hp, ha]
          simp [hm, ha, ih]
        · have hm : isMaster net ip p = false := by simp [isMaster, hp, ha]
          simp [hm, ha, ih, List.count_cons]
  rw [hcount]
  exact List.nodup_iff_count_le_one.mp hnodup ip

/-- C3 (amended): for a non-empty label value and a snapshot in which no two pods with a
parseable IP have the same address, after a pass in which every write succeeds the pods that
have a parseable IP and carry `LabelKey = LabelValue` are none or a single pod, and each such
pod has the primary IP, whatever labels the pods carried before. A pod whose IP does not parse
is skipped and is after the pass what it was before. -/
theorem at_most_one_parsed_pod_labelled (net : Net) (config : Config) (ip : IP)
    (pods : List Pod) (hval : config.MasterPodLabelValue ≠ "")
    (hnodup : noDuplicateIPs net pods) :
    ((passPods net config ip allOk pods).filter
        (fun q => carriesLabel config q && (net.ParseIP q.PodIP).isSome)).length ≤ 1 ∧
    (∀ q ∈ passPods net config ip allOk pods,
        (net.ParseIP q.PodIP).isSome = true → carriesLabel config q = true →
          net.ParseIP q.PodIP = some ip) ∧
    List.Forall₂ (fun p q => net.ParseIP p.PodIP = none → q = p)
        pods (passPods net config ip allOk pods) := by
  rw [passPods_allOk]
  refine ⟨?_, ?_, ?_⟩
  · rw [List.filter_map, List.length_map]
    have hfun : ((fun q => carriesLabel config q && (net.ParseIP q.PodIP).isSome) ∘
        podAfter net config ip) = fun p => isMaster net ip p := by
      funext p
      exact labelled_parsed_podAfter net config ip p hval
    rw [hfun]
    exact length_filter_isMaster_le_one net ip pods hnodup
  · intro q hq hs hc
    obtain ⟨p, _, rfl⟩ := List.mem_map.mp hq
    have hm : isMaster net ip p = true := by
      rw [← labelled_parsed_podAfter net config ip p hval, hc, hs]; rfl
    rw [podAfter_PodIP]
    unfold isMaster at hm
    cases hp : net.ParseIP p.PodIP with
    | none => simp [hp] at hm
    | some a =>
      have ha : a = ip := by simpa [hp] using hm
      rw [ha]
  · apply forall₂_map_self
    intro p _ hp
    exact podAfter_unparsed net config ip p hp

/-- C3 (amended), at the snapshot of the counterexample. -/
theorem at_most_one_parsed_pod_labelled_witness :
    testConfig.MasterPodLabelValue ≠ "" ∧ noDuplicateIPs literalNet stalePods ∧
    ((passPods literalNet testConfig { addr := 183763205 } allOk stalePods).filter
        (fun q => carriesLabel testConfig q && (literalNet.ParseIP q.PodIP).isSome)).length
      ≤ 1 :=
  ⟨by decide, by unfold noDuplicateIPs; decide,
    (at_most_one_parsed_pod_labelled literalNet testConfig { addr := 183763205 } stalePods
      (by decide) (by unfold noDuplicateIPs; decide)).1⟩

/-- The two ways the loop body issues a request: labelling a pod at the primary IP, or clearing
the label of a pod elsewhere that carries it. -/
theorem loopBody_some (net : Net) (config : Config) (ip : IP) (p p' : Pod)
    (h : loopBody net config ip p = some p') :
    (isMaster net ip p = true ∧
        p' = p.setLabel config.MasterPodLabelName config.MasterPodLabelValue) ∨
    (isMaster net ip p = false ∧ (net.ParseIP p.PodIP).isSome = true ∧
        carriesLabel config p = true ∧ p' = p.setLabel config.MasterPodLabelName "") := by
  cases hp : net.ParseIP p.PodIP with
  | none => rw [loopBody_unparsed net config ip p hp] at h; cases h
  | some a =>
    have hs : (net.ParseIP p.PodIP).isSome = true := by simp [hp]
    cases hm : isMaster net ip p with
    | true =>
      rw [loopBody_master net config ip p hm] at h
      exact Or.inl ⟨rfl, (Option.some.inj h).symm⟩
    | false =>
      rw [loopBody_not_master net config ip p hm hs] at h
      cases hc : carriesLabel config p with
      | true =>
        rw [hc] at h
        exact Or.inr ⟨rfl, rfl, rfl, (Option.some.inj h).symm⟩
      | false => rw [hc] at h; simp at h

theorem mem_passCalls (net : Net) (config : Config) (ip : IP) (updateOk : Nat → Bool)
    (pods : List Pod) (c : ApiCall) :
    c ∈ passCalls net config ip updateOk pods ↔
      ∃ p ∈ pods, ∃ p', loopBody net config ip p = some p' ∧
        c = ApiCall.Update config.Namespace p' := by
  rw [passCalls_eq, List.mem_filterMap]
  constructor
  · rintro ⟨p, hp, h⟩
    cases hb : loopBody net config ip p with
    | none => simp [hb] at h
    | some p' =>
      refine ⟨p, hp, p', hb, ?_⟩
      simpa [hb, eq_comm] using h
  · rintro ⟨p, hp, p', hb, rfl⟩
    exact ⟨p, hp, by simp [hb]⟩

/-- A relation that holds between a pod and itself and between a pod and the object the loop
body writes for it holds between the snapshot and the stored pods after the loop, whichever
writes fail. -/
theorem podLoop_pods_forall₂ (net : Net) (config : Config) (ip : IP) (updateOk : Nat → Bool)
    (R : Pod → Pod → Prop) (hself : ∀ p, R p p)
    (hbody : ∀ p p', loopBody net config ip p = some p' → R p p') (i : Nat) (pods : List Pod) :
    List.Forall₂ R pods (podLoop net config ip updateOk i pods).2 := by
  induction pods generalizing i with
  | nil => exact List.Forall₂.nil
  | cons p rest ih =>
    cases hb : loopBody net config ip p with
    | none =>
      simp only [podLoop, hb]
      exact List.Forall₂.cons (hself p) (ih (i + 1))
    | some p' =>
      simp only [podLoop, hb]
      refine List.Forall₂.cons ?_ (ih (i + 1))
      cases updateOk i
      · simpa using hself p
      · simpa using hbody p p' hb

/-! ## C4: stale labels are cleared -/

/-- C4 (counterexample): the snapshot holds one pod that carries the label and whose IP (the
empty string) is not the primary IP 10.244.1.5. The pass issues no request and the pod carries
the label afterwards. -/
theorem stale_label_on_unparsed_pod_is_kept :
    carriesLabel testConfig stalePod = true ∧
    isMaster literalNet { addr := 183763205 } stalePod = false ∧
    setCurrentMaster literalNet healthyCluster testConfig ["10.244.1.5", "6379"] [stalePod] =
      Outcome.returned [] [stalePod] := by
  decide

/-- C4 (amended): for a non-empty label value, for every pod of the snapshot whose IP parses,
that carries `LabelKey = LabelValue` and whose IP is not the primary IP, the pass issues an
Update of that pod that sets the label to the empty string, so that the written pod does not
carry `LabelValue`, and after a pass whose writes succeed no pod with a parseable IP other than
the primary IP carries the label. This holds also when no pod of the snapshot has the primary
IP: then every request of the pass is such a clearing Update, and afterwards no pod with a
parseable IP carries the label. -/
theorem stale_parsed_pods_are_cleared (net : Net) (config : Config) (ip : IP)
    (updateOk : Nat → Bool) (pods : List Pod) (hval : config.MasterPodLabelValue ≠ "") :
    (∀ p ∈ pods, (net.ParseIP p.PodIP).isSome = true → isMaster net ip p = false →
        carriesLabel config p = true →
        ApiCall.Update config.Namespace (p.setLabel config.MasterPodLabelName "") ∈
            passCalls net config ip updateOk pods ∧
          carriesLabel config (p.setLabel config.MasterPodLabelName "") = false) ∧
    List.Forall₂
        (fun p q => (net.ParseIP p.PodIP).isSome = true → isMaster net ip p = false →
          carriesLabel config q = false)
        pods (passPods net config ip allOk pods) ∧
    ((∀ p ∈ pods, isMaster net ip p = false) →
        (∀ c ∈ passCalls net config ip updateOk pods, ∃ p ∈ pods,
            c = ApiCall.Update config.Namespace (p.setLabel config.MasterPodLabelName "")) ∧
        ∀ q ∈ passPods net config ip allOk pods,
          (net.ParseIP q.PodIP).isSome = true → carriesLabel config q = false) := by
  refine ⟨?_, ?_, ?_⟩
  · intro p hp hs hm hc
    refine ⟨?_, carriesLabel_clear config p hval⟩
    rw [mem_passCalls]
    refine ⟨p, hp, _, ?_, rfl⟩
    rw [loopBody_not_master net config ip p hm hs, hc]
    rfl
  · rw [passPods_allOk]
    apply forall₂_map_self
    intro p _ hs hm
    rw [carriesLabel_podAfter net config ip p hval hs, hm]
  · intro hnone
    constructor
    · intro c hc
      obtain ⟨p, hp, p', hb, rfl⟩ := (mem_passCalls net config ip updateOk pods c).mp hc
      rcases loopBody_some net config ip p p' hb with ⟨hm, _⟩ | ⟨_, _, _, rfl⟩
      · rw [hnone p hp] at hm; cases hm
      · exact ⟨p, hp, rfl⟩
    · rw [passPods_allOk]
      intro q hq hs
      obtain ⟨p, hp, rfl⟩ := List.mem_map.mp hq
      rw [podAfter_PodIP] at hs
      rw [carriesLabel_podAfter net config ip p hval hs, hnone p hp]

/-- C4 (amended), at the pods of `TestSetCurrentMaster` with the primary address 10.244.1.99
that no pod has: the label of `valkey-1` is cleared. -/
theorem stale_parsed_pods_are_cleared_witness :
    testConfig.MasterPodLabelValue ≠ "" ∧
    ApiCall.Update "default"
        { Name := "valkey-1", PodIP := "10.244.1.6",
          Labels := [("app.kubernetes.io/name", "valkey"), ("vk-master", "")] } ∈
      passCalls literalNet testConfig { addr := 183763299 } allOk testPods :=
  ⟨by decide,
    ((stale_parsed_pods_are_cleared literalNet testConfig { addr := 183763299 } allOk testPods
      (by decide)).1
        { Name := "valkey-1", PodIP := "10.244.1.6",
          Labels := [("app.kubernetes.io/name", "valkey"), ("vk-master", "true")] }
        (by decide) (by decide) (by decide) (by decide)).1⟩

/-! ## C5: labels other than the managed one -/

/-- C5: whichever writes fail, every pod after the pass has the name and the IP of the pod of
the snapshot at its position, every label key other than `LabelKey` has on it the entry it had
in the snapshot (none when it had none), and its `LabelKey` entry is what it was, or
`LabelValue`, or the empty string. The same holds of the pod object each request of the pass
carries: it differs from a pod of the snapshot in the `LabelKey` entry only, which is
`LabelValue` or the empty string. -/
theorem unrelated_labels_untouched (net : Net) (config : Config) (ip : IP)
    (updateOk : Nat → Bool) (pods : List Pod) :
    List.Forall₂
      (fun p q => q.Name = p.Name ∧ q.PodIP = p.PodIP ∧
        (∀ k, k ≠ config.MasterPodLabelName →
          Labels.find? q.Labels k = Labels.find? p.Labels k) ∧
        (Labels.find? q.Labels config.MasterPodLabelName =
            Labels.find? p.Labels config.MasterPodLabelName ∨
          Labels.find? q.Labels config.MasterPodLabelName = some config.MasterPodLabelValue ∨
          Labels.find? q.Labels config.MasterPodLabelName = some ""))
      pods (passPods net config ip updateOk pods) ∧
    ∀ c ∈ passCalls net config ip updateOk pods, ∃ p ∈ pods, ∃ q,
      c = ApiCall.Update config.Namespace q ∧ q.Name = p.Name ∧ q.PodIP = p.PodIP ∧
      (∀ k, k ≠ config.MasterPodLabelName →
        Labels.find? q.Labels k = Labels.find? p.Labels k) ∧
      (Labels.find? q.Labels config.MasterPodLabelName = some config.MasterPodLabelValue ∨
        Labels.find? q.Labels config.MasterPodLabelName = some "") := by
  constructor
  · apply podLoop_pods_forall₂
    · intro p
      exact ⟨rfl, rfl, fun _ _ => rfl, Or.inl rfl⟩
    · intro p p' hb
      rcases loopBody_some net config ip p p' hb with ⟨_, rfl⟩ | ⟨_, _, _, rfl⟩
      · exact ⟨rfl, rfl, fun k hk => Labels.find?_assign_other _ _ _ k hk,
          Or.inr (Or.inl (Labels.find?_assign_same _ _ _))⟩
      · exact ⟨rfl, rfl, fun k hk => Labels.find?_assign_other _ _ _ k hk,
          Or.inr (Or.inr (Labels.find?_assign_same _ _ _))⟩
  · intro c hc
    obtain ⟨p, hp, p', hb, rfl⟩ := (mem_passCalls net config ip updateOk pods c).mp hc
    refine ⟨p, hp, p', rfl, ?_⟩
    rcases loopBody_some net config ip p p' hb with ⟨_, rfl⟩ | ⟨_, _, _, rfl⟩
    · exact ⟨rfl, rfl, fun k hk => Labels.find?_assign_other _ _ _ k hk,
        Or.inl (Labels.find?_assign_same _ _ _)⟩
    · exact ⟨rfl, rfl, fun k hk => Labels.find?_assign_other _ _ _ k hk,
        Or.inr (Labels.find?_assign_same _ _ _)⟩

/-! ## C6: the kind of request -/

/-- C6 (counterexample): on the pods of `TestSetCurrentMaster` the pass issues two requests, one
labelling the primary and one clearing a stale label; both are full-object Updates and neither
is a patch of the managed label key. -/
theorem pass_issues_full_updates :
    passCalls literalNet testConfig { addr := 183763205 } allOk testPods =
      [ApiCall.Update "default"
        { Name := "valkey-0", PodIP := "10.244.1.5",
          Labels := [("app.kubernetes.io/name", "valkey"), ("vk-master", "true")] },
       ApiCall.Update "default"
        { Name := "valkey-1", PodIP := "10.244.1.6",
          Labels := [("app.kubernetes.io/name", "valkey"), ("vk-master", "")] }] ∧
    (passCalls literalNet testConfig { addr := 183763205 } allOk testPods).any
      (fun c => c.isPatchOf testConfig.MasterPodLabelName) = false ∧
    (passCalls literalNet testConfig { addr := 183763205 } allOk testPods).all
      (fun c => c.isUpdate) = true := by
  decide

/-- C6 (amended): every request a pass sends, both when labelling the primary and when clearing
a stale label, is a full-object Update of one pod and never a patch; the object it carries is a
pod of the snapshot with the managed label key, and nothing else, reassigned: to `LabelValue`
for a pod at the primary IP, to the empty string for a pod elsewhere that carried the label. -/
theorem every_request_is_update_of_one_label (net : Net) (config : Config) (ip : IP)
    (updateOk : Nat → Bool) (pods : List Pod) (c : ApiCall)
    (hc : c ∈ passCalls net config ip updateOk pods) :
    c.isUpdate = true ∧ c.isPatchOf config.MasterPodLabelName = false ∧
    ∃ p ∈ pods,
      (isMaster net ip p = true ∧ c = ApiCall.Update config.Namespace
          (p.setLabel config.MasterPodLabelName config.MasterPodLabelValue)) ∨
      (isMaster net ip p = false ∧ carriesLabel config p = true ∧
        c = ApiCall.Update config.Namespace (p.setLabel config.MasterPodLabelName "")) := by
  obtain ⟨p, hp, p', hb, rfl⟩ := (mem_passCalls net config ip updateOk pods c).mp hc
  refine ⟨rfl, rfl, p, hp, ?_⟩
  rcases loopBody_some net config ip p p' hb with ⟨hm, rfl⟩ | ⟨hm, _, hcar, rfl⟩
  · exact Or.inl ⟨hm, rfl⟩
  · exact Or.inr ⟨hm, hcar, rfl⟩

/-- C6 (amended), at the request that labels `valkey-0` in `TestSetCurrentMaster`. -/
theorem every_request_is_update_of_one_label_witness :
    ApiCall.Update "default"
        { Name := "valkey-0", PodIP := "10.244.1.5",
          Labels := [("app.kubernetes.io/name", "valkey"), ("vk-master", "true")] } ∈
      passCalls literalNet testConfig { addr := 183763205 } allOk testPods ∧
    (ApiCall.Update "default"
      { Name := "valkey-0", PodIP := "10.244.1.5",
        Labels := [("app.kubernetes.io/name", "valkey"), ("vk-master", "true")] }).isPatchOf
      testConfig.MasterPodLabelName = false :=
  ⟨by decide,
    (every_request_is_update_of_one_label literalNet testConfig { addr := 183763205 } allOk
      testPods _ (by decide)).2.1⟩

/-! ## C7, C8, C9: notification dispatch -/

theorem callSetCurrentMaster_effects (net : Net) (k8s : Cluster) (config : Config)
    (masterAddress : List String) (pods : List Pod) :
    (callSetCurrentMaster net k8s config masterAddress pods).effects =
      [Effect.reconcile masterAddress] := by
  unfold callSetCurrentMaster
  split <;> rfl

/-- C7: a `+switch-master` message whose payload does not have exactly five fields has no
effect: the reconciler is not invoked, the monitor is not queried, and the message loop goes on
with the next message of the same connection, the stored pods being what they were. -/
theorem malformed_switch_master_is_dropped (net : Net) (sentinel : Sentinel) (k8s : Cluster)
    (config : Config) (pods : List Pod) (msg : Message) (rest : List Message)
    (hch : msg.Channel = "+switch-master") (hlen : (strings.Fields msg.Payload).length ≠ 5) :
    handleMessage net sentinel k8s config pods msg = { effects := [], next := some pods } ∧
    reconcileCalls (handleMessage net sentinel k8s config pods msg).effects = [] ∧
    queryCount (handleMessage net sentinel k8s config pods msg).effects = 0 ∧
    consumeMessages net sentinel k8s config pods (msg :: rest) =
      consumeMessages net sentinel k8s config pods rest := by
  have h : handleMessage net sentinel k8s config pods msg =
      { effects := [], next := some pods } := by
    simp [handleMessage, hch, hlen]
  refine ⟨h, ?_, ?_, ?_⟩
  · rw [h]; rfl
  · rw [h]; rfl
  · simp [consumeMessages, h]

/-- C7, at the payload of three fields of the test `TestSwitchMasterEventParsing`, followed by
a well-formed message: the loop drops the first message and handles the second. -/
theorem malformed_switch_master_is_dropped_witness :
    (strings.Fields "myprimary 127.0.0.1 6379").length ≠ 5 ∧
    handleMessage literalNet testSentinel healthyCluster testConfig testPods
        { Channel := "+switch-master", Payload := "myprimary 127.0.0.1 6379" } =
      { effects := [], next := some testPods } ∧
    consumeMessages literalNet testSentinel healthyCluster testConfig testPods
        [{ Channel := "+switch-master", Payload := "myprimary 127.0.0.1 6379" },
         { Channel := "+switch-master",
           Payload := "myprimary 10.244.1.6 6379 10.244.1.5 6379" }] =
      consumeMessages literalNet testSentinel healthyCluster testConfig testPods
        [{ Channel := "+switch-master",
           Payload := "myprimary 10.244.1.6 6379 10.244.1.5 6379" }] :=
  ⟨by decide,
    (malformed_switch_master_is_dropped literalNet testSentinel healthyCluster testConfig testPods
      { Channel := "+switch-master", Payload := "myprimary 127.0.0.1 6379" }
      [{ Channel := "+switch-master", Payload := "myprimary 10.244.1.6 6379 10.244.1.5 6379" }]
      (by decide) (by decide)).1,
    (malformed_switch_master_is_dropped literalNet testSentinel healthyCluster testConfig testPods
      { Channel := "+switch-master", Payload := "myprimary 127.0.0.1 6379" }
      [{ Channel := "+switch-master", Payload := "myprimary 10.244.1.6 6379 10.244.1.5 6379" }]
      (by decide) (by decide)).2.2.2⟩

/-- C8: a `+switch-master` message whose payload has exactly the five fields
`name oldHost oldPort newHost newPort` makes the watcher invoke the reconciler exactly once,
with the address `[newHost, newPort]` of the payload, and query the monitor not at all. -/
theorem well_formed_switch_master_reconciles_once (net : Net) (sentinel : Sentinel)
    (k8s : Cluster) (config : Config) (pods : List Pod) (msg : Message)
    (name oldHost oldPort newHost newPort : String)
    (hch : msg.Channel = "+switch-master")
    (hfields : strings.Fields msg.Payload = [name, oldHost, oldPort, newHost, newPort]) :
    (handleMessage net sentinel k8s config pods msg).effects =
      [Effect.reconcile [newHost, newPort]] ∧
    reconcileCalls (handleMessage net sentinel k8s config pods msg).effects =
      [[newHost, newPort]] ∧
    queryCount (handleMessage net sentinel k8s config pods msg).effects = 0 := by
  have h : (handleMessage net sentinel k8s config pods msg).effects =
      [Effect.reconcile [newHost, newPort]] := by
    simp [handleMessage, hch, hfields, callSetCurrentMaster_effects]
  refine ⟨h, ?_, ?_⟩
  · rw [h]; rfl
  · rw [h]; rfl

/-- C8, at the payload of the test `TestSwitchMasterEventParsing`. -/
theorem well_formed_switch_master_reconciles_once_witness :
    strings.Fields "myprimary 127.0.0.1 6379 192.168.1.10 6379" =
      ["myprimary", "127.0.0.1", "6379", "192.168.1.10", "6379"] ∧
    (handleMessage literalNet testSentinel healthyCluster testConfig testPods
        { Channel := "+switch-master",
          Payload := "myprimary 127.0.0.1 6379 192.168.1.10 6379" }).effects =
      [Effect.reconcile ["192.168.1.10", "6379"]] :=
  ⟨by decide,
    (well_formed_switch_master_reconciles_once literalNet testSentinel healthyCluster testConfig
      testPods
      { Channel := "+switch-master", Payload := "myprimary 127.0.0.1 6379 192.168.1.10 6379" }
      "myprimary" "127.0.0.1" "6379" "192.168.1.10" "6379" (by decide) (by decide)).1⟩

/-- C9: handling a message queries the monitor (once) exactly when its channel is `+reboot`;
on `+reboot`, when the query succeeds the reconciler is invoked once, after the query, with the
address the monitor returned, and when it fails the reconciler is not invoked and the loop goes
on; a message on a channel other than `+switch-master` and `+reboot` has no effect. -/
theorem dispatch_by_channel (net : Net) (sentinel : Sentinel) (k8s : Cluster)
    (config : Config) (pods : List Pod) (msg : Message) :
    (queryCount (handleMessage net sentinel k8s config pods msg).effects =
        if msg.Channel = "+reboot" then 1 else 0) ∧
    (msg.Channel = "+reboot" → (sentinel.GetMasterAddrByName config.MasterName).2 = none →
        (handleMessage net sentinel k8s config pods msg).effects =
          [Effect.monitorQuery config.MasterName,
            Effect.reconcile (sentinel.GetMasterAddrByName config.MasterName).1]) ∧
    (msg.Channel = "+reboot" → (sentinel.GetMasterAddrByName config.MasterName).2 ≠ none →
        handleMessage net sentinel k8s config pods msg =
          { effects := [Effect.monitorQuery config.MasterName], next := some pods }) ∧
    (msg.Channel ≠ "+switch-master" → msg.Channel ≠ "+reboot" →
        handleMessage net sentinel k8s config pods msg =
          { effects := [], next := some pods }) := by
  have hne : ¬ ("+reboot" = "+switch-master") := by decide
  have haddr : (getCurrentMaster config sentinel).1 =
      (sentinel.GetMasterAddrByName config.MasterName).1 := by
    unfold getCurrentMaster getCurrentMasterFromSentinel
    dsimp only
    split <;> rfl
  have herr : (getCurrentMaster config sentinel).2 =
      (sentinel.GetMasterAddrByName config.MasterName).2 := by
    unfold getCurrentMaster getCurrentMasterFromSentinel
    dsimp only
    split
    · next e he => rw [he]
    · next he => rw [he]
  have hreboot : msg.Channel = "+reboot" →
      handleMessage net sentinel k8s config pods msg =
        match (getCurrentMaster config sentinel).2 with
        | some _ => { effects := [Effect.monitorQuery config.MasterName], next := some pods }
        | none =>
          { effects := Effect.monitorQuery config.MasterName ::
              (callSetCurrentMaster net k8s config (getCurrentMaster config sentinel).1
                pods).effects,
            next := (callSetCurrentMaster net k8s config (getCurrentMaster config sentinel).1
                pods).next } := by
    intro h2
    have h1 : ¬ msg.Channel = "+switch-master" := fun e => hne (h2.symm.trans e)
    unfold handleMessage
    rw [if_neg h1, if_pos h2]
  refine ⟨?_, ?_, ?_, ?_⟩
  · by_cases h1 : msg.Channel = "+switch-master"
    · have h2 : ¬ msg.Channel = "+reboot" := fun e => hne (e.symm.trans h1)
      unfold handleMessage
      rw [if_pos h1, if_neg h2]
      by_cases h5 : (strings.Fields msg.Payload).length ≠ 5
      · rw [if_pos h5]; rfl
      · rw [if_neg h5, callSetCurrentMaster_effects]; rfl
    · by_cases h2 : msg.Channel = "+reboot"
      · rw [hreboot h2, if_pos h2]
        cases h : (getCurrentMaster config sentinel).2 with
        | none =>
          simp only [callSetCurrentMaster_effects]
          rfl
        | some e => rfl
      · unfold handleMessage
        rw [if_neg h1, if_neg h2, if_neg h2]; rfl
  · intro h2 hok
    rw [← herr] at hok
    rw [hreboot h2, hok]
    simp only [callSetCurrentMaster_effects, haddr]
  · intro h2 hfail
    rw [← herr] at hfail
    rw [hreboot h2]
    cases h : (getCurrentMaster config sentinel).2 with
    | none => exact absurd h hfail
    | some e => rfl
  · intro h1 h2
    unfold handleMessage
    rw [if_neg h1, if_neg h2]

/-- C9, at the three messages of the test `TestRebootEventHandling`. -/
theorem dispatch_by_channel_witness :
    queryCount (handleMessage literalNet testSentinel healthyCluster testConfig testPods
      { Channel := "+reboot", Payload := "master myprimary" }).effects = 1 ∧
    queryCount (handleMessage literalNet testSentinel healthyCluster testConfig testPods
      { Channel := "+switch-master",
        Payload := "myprimary 127.0.0.1 6379 192.168.1.10 6379" }).effects = 0 ∧
    handleMessage literalNet testSentinel healthyCluster testConfig testPods
      { Channel := "+sdown", Payload := "master myprimary" } =
        { effects := [], next := some testPods } :=
  ⟨(dispatch_by_channel literalNet testSentinel healthyCluster testConfig testPods
      { Channel := "+reboot", Payload := "master myprimary" }).1,
    (dispatch_by_channel literalNet testSentinel healthyCluster testConfig testPods
      { Channel := "+switch-master",
        Payload := "myprimary 127.0.0.1 6379 192.168.1.10 6379" }).1,
    (dispatch_by_channel literalNet testSentinel healthyCluster testConfig testPods
      { Channel := "+sdown", Payload := "master myprimary" }).2.2.2 (by decide) (by decide)⟩

/-! ## C10: the configuration -/

theorem getEnvOrDefault_isSettingOf (env : Environ) (key dflt : String) :
    isSettingOf env key dflt (getEnvOrDefault env key dflt) := by
  unfold isSettingOf unsetOrEmpty getEnvOrDefault os.Getenv
  constructor
  · intro v hv hne
    simp [hv, hne]
  · rintro (h | h) <;> simp [h]

theorem getEnvOrDefault_eq_empty_iff (env : Environ) (key : String) :
    getEnvOrDefault env key "" = "" ↔ unsetOrEmpty env key := by
  unfold unsetOrEmpty getEnvOrDefault os.Getenv
  cases h : env key with
  | none => simp
  | some v =>
    by_cases hv : v = ""
    · simp [hv]
    · simp [hv]

/-- Every configuration `getConfig` returns has a non-empty label value. -/
theorem getConfig_labelValue_ne_empty (env : Environ) (config : Config)
    (h : getConfig env = Except.ok config) : config.MasterPodLabelValue ≠ "" := by
  unfold getConfig at h
  dsimp only at h
  split at h
  · cases h
  · split at h
    · cases h
    · cases h
      unfold getEnvOrDefault
      dsimp only
      split
      · assumption
      · decide

/-- C10: `getConfig` returns an error exactly when the monitor host variable or the monitor
credential variable is unset or empty; otherwise it returns a configuration, and in every
configuration it returns each setting is its environment variable when that is set to a
non-empty string and its default otherwise (port 26379, master name myprimary, namespace
default, label key valkey-master, label value true; host and credential have no default and are
non-empty). -/
theorem getConfig_spec (env : Environ) :
    ((∃ e, getConfig env = Except.error e) ↔
      (unsetOrEmpty env envValkeySentinelHost ∨ unsetOrEmpty env envValkeySentinelPassword)) ∧
    ((¬ unsetOrEmpty env envValkeySentinelHost ∧ ¬ unsetOrEmpty env envValkeySentinelPassword) ↔
      ∃ config, getConfig env = Except.ok config) ∧
    (∀ config, getConfig env = Except.ok config →
      isSettingOf env envValkeySentinelPort "26379" config.SentinelPort ∧
      isSettingOf env envValkeySentinelHost "" config.SentinelHost ∧
      config.SentinelHost ≠ "" ∧
      isSettingOf env envValkeySentinelPassword "" config.SentinelPassword ∧
      config.SentinelPassword ≠ "" ∧
      isSettingOf env envValkeyMasterName "myprimary" config.MasterName ∧
      isSettingOf env envPodNamespace "default" config.Namespace ∧
      isSettingOf env envMasterPodLabelName "valkey-master" config.MasterPodLabelName ∧
      isSettingOf env envMasterPodLabelValue "true" config.MasterPodLabelValue ∧
      config.ServiceName = "") := by
  have hH := getEnvOrDefault_eq_empty_iff env envValkeySentinelHost
  have hP := getEnvOrDefault_eq_empty_iff env envValkeySentinelPassword
  by_cases h1 : getEnvOrDefault env envValkeySentinelHost "" = ""
  · have hg : getConfig env =
        Except.error (envValkeySentinelHost ++ " environment variable is required") := by
      unfold getConfig
      dsimp only
      rw [if_pos h1]
    refine ⟨⟨fun _ => Or.inl (hH.mp h1), fun _ => ⟨_, hg⟩⟩, ⟨?_, ?_⟩, ?_⟩
    · intro h; exact absurd (hH.mp h1) h.1
    · rintro ⟨c, hc⟩; rw [hg] at hc; cases hc
    · intro c hc; rw [hg] at hc; cases hc
  · by_cases h2 : getEnvOrDefault env envValkeySentinelPassword "" = ""
    · have hg : getConfig env =
          Except.error (envValkeySentinelPassword ++ " environment variable is required") := by
        unfold getConfig
        dsimp only
        rw [if_neg h1, if_pos h2]
      refine ⟨⟨fun _ => Or.inr (hP.mp h2), fun _ => ⟨_, hg⟩⟩, ⟨?_, ?_⟩, ?_⟩
      · intro h; exact absurd (hP.mp h2) h.2
      · rintro ⟨c, hc⟩; rw [hg] at hc; cases hc
      · intro c hc; rw [hg] at hc; cases hc
    · have hg : getConfig env = Except.ok
          { SentinelPort := getEnvOrDefault env envValkeySentinelPort "26379"
            SentinelHost := getEnvOrDefault env envValkeySentinelHost ""
            SentinelPassword := getEnvOrDefault env envValkeySentinelPassword ""
            ServiceName := ""
            MasterName := getEnvOrDefault env envValkeyMasterName "myprimary"
            Namespace := getEnvOrDefault env envPodNamespace "default"
            MasterPodLabelName := getEnvOrDefault env envMasterPodLabelName "valkey-master"
            MasterPodLabelValue := getEnvOrDefault env envMasterPodLabelValue "true" } := by
        unfold getConfig
        dsimp only
        rw [if_neg h1, if_neg h2]
      have nH : ¬ unsetOrEmpty env envValkeySentinelHost := fun h => h1 (hH.mpr h)
      have nP : ¬ unsetOrEmpty env envValkeySentinelPassword := fun h => h2 (hP.mpr h)
      refine ⟨⟨?_, ?_⟩, ⟨fun _ => ⟨_, hg⟩, fun _ => ⟨nH, nP⟩⟩, ?_⟩
      · rintro ⟨e, he⟩; rw [hg] at he; cases he
      · rintro (h | h)
        · exact absurd h nH
        · exact absurd h nP
      · intro c hc
        rw [hg] at hc
        cases hc
        exact ⟨getEnvOrDefault_isSettingOf _ _ _, getEnvOrDefault_isSettingOf _ _ _, h1,
          getEnvOrDefault_isSettingOf _ _ _, h2, getEnvOrDefault_isSettingOf _ _ _,
          getEnvOrDefault_isSettingOf _ _ _, getEnvOrDefault_isSettingOf _ _ _,
          getEnvOrDefault_isSettingOf _ _ _, rfl⟩

/-- C10, at the environments of the test `TestGetConfig`: host and credential set gives the
defaults, a missing credential gives the error. -/
theorem getConfig_spec_witness :
    getConfig testEnviron = Except.ok
      { SentinelPort := "26379", SentinelHost := "redis-sentinel",
        SentinelPassword := "password123", ServiceName := "", MasterName := "myprimary",
        Namespace := "default", MasterPodLabelName := "valkey-master",
        MasterPodLabelValue := "true" } ∧
    ((∃ e, getConfig (fun key =>
        if key = "VALKEY_SENTINEL_HOST" then some "redis-sentinel" else none) =
          Except.error e) ↔
      (unsetOrEmpty (fun key =>
          if key = "VALKEY_SENTINEL_HOST" then some "redis-sentinel" else none)
          envValkeySentinelHost ∨
        unsetOrEmpty (fun key =>
          if key = "VALKEY_SENTINEL_HOST" then some "redis-sentinel" else none)
          envValkeySentinelPassword)) :=
  ⟨by rfl,
    (getConfig_spec (fun key =>
      if key = "VALKEY_SENTINEL_HOST" then some "redis-sentinel" else none)).1⟩

/-! ## C11: the monitor query -/

/-- C11 (counterexample): the monitor answers without an error and with a host only. The
resolver returns that reply without an error, although it lacks the port element, and the
reconciler called with it panics at `masterAddress[1]`. -/
theorem resolver_returns_short_address :
    getCurrentMasterFromSentinel testConfig hostOnlySentinel = (["10.244.1.5"], none) ∧
    hasHostAndPort (getCurrentMasterFromSentinel testConfig hostOnlySentinel).1 = false ∧
    setCurrentMaster literalNet healthyCluster testConfig
        (getCurrentMasterFromSentinel testConfig hostOnlySentinel).1 testPods =
      Outcome.panicked := by
  decide

/-- C11 (amended): the resolver queries the monitor once, for the configured master name, and
returns the reply as it is. When the query fails it returns that same error; when it succeeds
it returns the monitor's address unchanged with no error. It checks nothing: what it returns
without an error has the host and the port element exactly when the monitor's successful reply
has them. -/
theorem resolver_returns_reply_unchanged (config : Config) (sentinel : Sentinel) :
    getCurrentMasterFromSentinel config sentinel =
      sentinel.GetMasterAddrByName config.MasterName ∧
    (∀ err, (sentinel.GetMasterAddrByName config.MasterName).2 = some err →
      (getCurrentMasterFromSentinel config sentinel).2 = some err) ∧
    ((sentinel.GetMasterAddrByName config.MasterName).2 = none →
      getCurrentMasterFromSentinel config sentinel =
        ((sentinel.GetMasterAddrByName config.MasterName).1, none)) ∧
    (((getCurrentMasterFromSentinel config sentinel).2 = none ∧
        hasHostAndPort (getCurrentMasterFromSentinel config sentinel).1 = true) ↔
      ((sentinel.GetMasterAddrByName config.MasterName).2 = none ∧
        hasHostAndPort (sentinel.GetMasterAddrByName config.MasterName).1 = true)) := by
  have h : getCurrentMasterFromSentinel config sentinel =
      sentinel.GetMasterAddrByName config.MasterName := by
    unfold getCurrentMasterFromSentinel
    dsimp only
    split
    · next e he => rw [← he]
    · next he => rw [← he]
  refine ⟨h, ?_, ?_, ?_⟩
  · intro err he
    rw [h, he]
  · intro he
    rw [h, ← he]
  · rw [h]

/-! ## C12: the primary host does not resolve -/

/-- C12 (counterexample): the host `valkey-primary` does not resolve. The pass ends in
`log.Fatalf`, and of two `+switch-master` messages, the first naming that host, the message loop
handles the first only: the process has ended and the second message, whose host resolves, is
never handled. -/
theorem lookup_failure_stops_the_watcher :
    setCurrentMaster literalNet healthyCluster testConfig ["valkey-primary", "6379"] testPods =
      Outcome.fatal "Failed to lookup master IP: lookup valkey-primary: no such host" ∧
    consumeMessages literalNet testSentinel healthyCluster testConfig testPods
        [{ Channel := "+switch-master",
           Payload := "myprimary 10.244.1.6 6379 valkey-primary 6379" },
         { Channel := "+switch-master",
           Payload := "myprimary 10.244.1.6 6379 10.244.1.5 6379" }] =
      ([Effect.reconcile ["valkey-primary", "6379"]], none) := by
  decide

theorem setCurrentMaster_lookup_error (net : Net) (k8s : Cluster) (config : Config)
    (host : String) (more : List String) (pods : List Pod) (e : String)
    (hl : net.LookupIP host = Except.error e) :
    setCurrentMaster net k8s config (host :: more) pods =
      Outcome.fatal ("Failed to lookup master IP: " ++ e) := by
  simp [setCurrentMaster, hl]

/-- C12 (amended): for every primary address whose host cannot be resolved to an IP, the pass
aborts with no label changed (it has issued no request) by `log.Fatalf`, which terminates the
process; the watcher does not go on to a next event: a message loop that invoked the pass for a
`+switch-master` message naming that host ends with that invocation, whatever messages
follow. -/
theorem lookup_failure_ends_process (net : Net) (sentinel : Sentinel) (k8s : Cluster)
    (config : Config) (host : String) (more : List String) (pods : List Pod) (e : String)
    (hl : net.LookupIP host = Except.error e) :
    setCurrentMaster net k8s config (host :: more) pods =
      Outcome.fatal ("Failed to lookup master IP: " ++ e) ∧
    (setCurrentMaster net k8s config (host :: more) pods).calls = [] ∧
    (setCurrentMaster net k8s config (host :: more) pods).endsProcess = true ∧
    callSetCurrentMaster net k8s config (host :: more) pods =
      { effects := [Effect.reconcile (host :: more)], next := none } ∧
    ∀ (msg : Message) (later : List Message) (name oldHost oldPort port : String),
      msg.Channel = "+switch-master" →
      strings.Fields msg.Payload = [name, oldHost, oldPort, host, port] →
      consumeMessages net sentinel k8s config pods (msg :: later) =
        ([Effect.reconcile [host, port]], none) := by
  have hfatal := setCurrentMaster_lookup_error net k8s config host more pods e hl
  refine ⟨hfatal, ?_, ?_, ?_, ?_⟩
  · rw [hfatal]; rfl
  · rw [hfatal]; rfl
  · unfold callSetCurrentMaster
    rw [hfatal]
  · intro msg later name oldHost oldPort port hch hfields
    have hf := setCurrentMaster_lookup_error net k8s config host [port] pods e hl
    have hh : handleMessage net sentinel k8s config pods msg =
        { effects := [Effect.reconcile [host, port]], next := none } := by
      simp [handleMessage, hch, hfields, callSetCurrentMaster, hf]
    simp [consumeMessages, hh]

/-- C12 (amended), at the host `valkey-primary`, which `literalNet` does not resolve. -/
theorem lookup_failure_ends_process_witness :
    literalNet.LookupIP "valkey-primary" =
      Except.error "lookup valkey-primary: no such host" ∧
    setCurrentMaster literalNet healthyCluster testConfig ["valkey-primary", "6379"] testPods =
      Outcome.fatal ("Failed to lookup master IP: " ++ "lookup valkey-primary: no such host") ∧
    (setCurrentMaster literalNet healthyCluster testConfig ["valkey-primary", "6379"]
      testPods).calls = [] :=
  ⟨by rfl,
    (lookup_failure_ends_process literalNet testSentinel healthyCluster testConfig
      "valkey-primary" ["6379"] testPods "lookup valkey-primary: no such host" (by rfl)).1,
    (lookup_failure_ends_process literalNet testSentinel healthyCluster testConfig
      "valkey-primary" ["6379"] testPods "lookup valkey-primary: no such host" (by rfl)).2.1⟩

/-! ## C13: a failed write -/

theorem podLoop_pods_getElem? (net : Net) (config : Config) (ip : IP) (updateOk : Nat → Bool)
    (k : Nat) (pods : List Pod) (i : Nat) :
    (podLoop net config ip updateOk k pods).2[i]? =
      (pods[i]?).map (fun p => if updateOk (k + i) = true then podAfter net config ip p else p) := by
  induction pods generalizing k i with
  | nil => simp [podLoop]
  | cons p rest ih =>
    cases i with
    | zero =>
      cases hb : loopBody net config ip p with
      | none => simp [podLoop, podAfter, hb]
      | some p' => simp [podLoop, podAfter, hb]
    | succ j =>
      have hj : k + (j + 1) = (k + 1) + j := by omega
      cases hb : loopBody net config ip p with
      | none => simp [podLoop, hb, ih, hj]
      | some p' => simp [podLoop, hb, ih, hj]

theorem passCalls_independent_of_writes (net : Net) (config : Config) (ip : IP)
    (updateOk updateOk' : Nat → Bool) (pods : List Pod) :
    passCalls net config ip updateOk pods = passCalls net config ip updateOk' pods := by
  rw [passCalls_eq, passCalls_eq]

/-- C13: whichever writes fail, the pass issues the requests it issues when every write
succeeds: a failed write does not abort it. For a pod at any position of the snapshot, the
requests of the pass are the requests for the pods before it, then the request (set, clear or
none) the loop body computes from that pod alone, then the requests for the pods after it, none
of which depends on the outcome of a write. The stored pod at position `i` is the written
object when the write at `i` succeeds and the listed pod otherwise. The same holds of
`setCurrentMaster` as a whole: its requests, and whether it returns, do not depend on which
writes fail. -/
theorem failed_write_does_not_abort (net : Net) (k8s : Cluster) (config : Config)
    (masterAddress : List String) (ip : IP) (updateOk : Nat → Bool) (pods : List Pod) :
    passCalls net config ip updateOk pods = passCalls net config ip allOk pods ∧
    (∀ (before : List Pod) (pod : Pod) (after : List Pod), pods = before ++ pod :: after →
      passCalls net config ip updateOk pods =
        passCalls net config ip allOk before ++
          ((loopBody net config ip pod).map (ApiCall.Update config.Namespace)).toList ++
          passCalls net config ip allOk after) ∧
    (∀ i, (passPods net config ip updateOk pods)[i]? =
      (pods[i]?).map (fun p => if updateOk i = true then podAfter net config ip p else p)) ∧
    (setCurrentMaster net k8s config masterAddress pods).calls =
      (setCurrentMaster net { k8s with updateOk := allOk } config masterAddress pods).calls ∧
    (setCurrentMaster net k8s config masterAddress pods).endsProcess =
      (setCurrentMaster net { k8s with updateOk := allOk } config masterAddress
        pods).endsProcess := by
  refine ⟨passCalls_independent_of_writes net config ip updateOk allOk pods, ?_, ?_, ?_, ?_⟩
  · intro before pod after hpods
    rw [hpods, passCalls_eq, passCalls_eq, passCalls_eq, List.filterMap_append,
      List.filterMap_cons]
    cases loopBody net config ip pod <;> simp
  · intro i
    have h := podLoop_pods_getElem? net config ip updateOk 0 pods i
    simpa [passPods] using h
  · obtain ⟨c1, c2, c3, ok⟩ := k8s
    unfold setCurrentMaster
    cases masterAddress with
    | nil => rfl
    | cons host more =>
      dsimp only
      cases net.LookupIP host with
      | error e => rfl
      | ok masterIp =>
        dsimp only
        cases c1 with
        | some e => rfl
        | none =>
          cases c2 with
          | some e => rfl
          | none =>
            cases more with
            | nil => rfl
            | cons port more' =>
              cases c3 with
              | some e => rfl
              | none =>
                cases masterIp with
                | nil => rfl
                | cons ip0 ips =>
                  exact passCalls_independent_of_writes net config ip0 ok allOk pods
  · obtain ⟨c1, c2, c3, ok⟩ := k8s
    unfold setCurrentMaster
    cases masterAddress with
    | nil => rfl
    | cons host more =>
      dsimp only
      cases net.LookupIP host with
      | error e => rfl
      | ok masterIp =>
        dsimp only
        cases c1 with
        | some e => rfl
        | none =>
          cases c2 with
          | some e => rfl
          | none =>
            cases more with
            | nil => rfl
            | cons port more' =>
              cases c3 with
              | some e => rfl
              | none =>
                cases masterIp with
                | nil => rfl
                | cons ip0 ips => rfl

/-- C13, at the pods of `TestSetCurrentMaster` when the write for the first pod fails: the
second pod still gets its clearing write, and only the first pod stays as it was. -/
theorem failed_write_does_not_abort_witness :
    passCalls literalNet testConfig { addr := 183763205 } (fun i => decide (i ≠ 0)) testPods =
      passCalls literalNet testConfig { addr := 183763205 } allOk testPods ∧
    passCalls literalNet testConfig { addr := 183763205 } (fun i => decide (i ≠ 0)) testPods =
      [ApiCall.Update "default"
        { Name := "valkey-0", PodIP := "10.244.1.5",
          Labels := [("app.kubernetes.io/name", "valkey"), ("vk-master", "true")] },
       ApiCall.Update "default"
        { Name := "valkey-1", PodIP := "10.244.1.6",
          Labels := [("app.kubernetes.io/name", "valkey"), ("vk-master", "")] }] ∧
    passPods literalNet testConfig { addr := 183763205 } (fun i => decide (i ≠ 0)) testPods =
      [{ Name := "valkey-0", PodIP := "10.244.1.5",
         Labels := [("app.kubernetes.io/name", "valkey")] },
       { Name := "valkey-1", PodIP := "10.244.1.6",
         Labels := [("app.kubernetes.io/name", "valkey"), ("vk-master", "")] }] :=
  ⟨(failed_write_does_not_abort literalNet healthyCluster testConfig ["10.244.1.5", "6379"]
      { addr := 183763205 } (fun i => decide (i ≠ 0)) testPods).1,
    by decide, by decide⟩

/-! ## C14: a host with several addresses -/

/-- C14 (counterexample): the host `valkey-primary` resolves to 10.244.1.5 and 10.244.1.6. The
pod `valkey-1` has the second of these addresses and carries the label; the pass clears its
label as stale and labels only the pod at the first address. -/
theorem pod_at_second_address_is_cleared :
    twoAddressNet.LookupIP "valkey-primary" =
      Except.ok [{ addr := 183763205 }, { addr := 183763206 }] ∧
    twoAddressNet.ParseIP "10.244.1.6" = some { addr := 183763206 } ∧
    setCurrentMaster twoAddressNet healthyCluster testConfig ["valkey-primary", "6379"]
        testPods =
      Outcome.returned
        [ApiCall.Update "default"
          { Name := "valkey-0", PodIP := "10.244.1.5",
            Labels := [("app.kubernetes.io/name", "valkey"), ("vk-master", "true")] },
         ApiCall.Update "default"
          { Name := "valkey-1", PodIP := "10.244.1.6",
            Labels := [("app.kubernetes.io/name", "valkey"), ("vk-master", "")] }]
        testPodsAfter :=
  ⟨by rfl, by decide, by decide⟩

theorem isMaster_iff (net : Net) (ip : IP) (p : Pod) :
    isMaster net ip p = true ↔ net.ParseIP p.PodIP = some ip := by
  unfold isMaster
  cases net.ParseIP p.PodIP with
  | none => simp
  | some a => simp

/-- C14 (amended): when the primary's host resolves to the addresses `ip :: ips`, the pass is
the pod loop run against `ip`, the first of them, alone. A pod whose IP is `ip` gets the
labelling write; a pod whose IP parses to any other address, an address of `ips` included, gets
the clearing write when it carries the label and no write otherwise. So, for a non-empty label
value, after a pass whose writes succeed a pod with a parseable IP carries the label exactly
when its IP is the first resolved address. -/
theorem only_first_resolved_address_matches (net : Net) (k8s : Cluster) (config : Config)
    (host port : String) (more : List String) (ip : IP) (ips : List IP) (pods : List Pod)
    (hl : net.LookupIP host = Except.ok (ip :: ips)) (h1 : k8s.InClusterConfig = none)
    (h2 : k8s.NewForConfig = none) (h3 : k8s.ListErr = none)
    (hval : config.MasterPodLabelValue ≠ "") :
    setCurrentMaster net k8s config (host :: port :: more) pods =
      Outcome.returned (passCalls net config ip k8s.updateOk pods)
        (passPods net config ip k8s.updateOk pods) ∧
    (∀ p ∈ pods, ∀ a, net.ParseIP p.PodIP = some a →
      (a = ip →
        ApiCall.Update config.Namespace
            (p.setLabel config.MasterPodLabelName config.MasterPodLabelValue) ∈
          passCalls net config ip k8s.updateOk pods) ∧
      (a ≠ ip → carriesLabel config p = true →
        ApiCall.Update config.Namespace (p.setLabel config.MasterPodLabelName "") ∈
          passCalls net config ip k8s.updateOk pods) ∧
      (a ≠ ip → carriesLabel config p = false → loopBody net config ip p = none)) ∧
    List.Forall₂
      (fun p q => (net.ParseIP p.PodIP).isSome = true →
        (carriesLabel config q = true ↔ net.ParseIP p.PodIP = some ip))
      pods (passPods net config ip allOk pods) := by
  refine ⟨setCurrentMaster_returned net k8s config host port more ip ips pods hl h1 h2 h3,
    ?_, ?_⟩
  · intro p hp a ha
    have hs : (net.ParseIP p.PodIP).isSome = true := by simp [ha]
    refine ⟨?_, ?_, ?_⟩
    · intro hip
      have hm : isMaster net ip p = true := (isMaster_iff net ip p).mpr (by rw [ha, hip])
      rw [mem_passCalls]
      exact ⟨p, hp, _, loopBody_master net config ip p hm, rfl⟩
    · intro hne hc
      have hm : isMaster net ip p = false := by
        cases h : isMaster net ip p with
        | false => rfl
        | true =>
          have := (isMaster_iff net ip p).mp h
          rw [ha] at this
          exact absurd (Option.some.inj this) hne
      rw [mem_passCalls]
      refine ⟨p, hp, _, ?_, rfl⟩
      rw [loopBody_not_master net config ip p hm hs, hc]
      rfl
    · intro hne hc
      have hm : isMaster net ip p = false := by
        cases h : isMaster net ip p with
        | false => rfl
        | true =>
          have := (isMaster_iff net ip p).mp h
          rw [ha] at this
          exact absurd (Option.some.inj this) hne
      rw [loopBody_not_master net config ip p hm hs, hc]
      rfl
  · rw [passPods_allOk]
    apply forall₂_map_self
    intro p _ hs
    rw [carriesLabel_podAfter net config ip p hval hs]
    exact isMaster_iff net ip p

/-- C14 (amended), at the host `valkey-primary` with its two addresses and the pods of
`TestSetCurrentMaster`. -/
theorem only_first_resolved_address_matches_witness :
    twoAddressNet.LookupIP "valkey-primary" =
      Except.ok [{ addr := 183763205 }, { addr := 183763206 }] ∧
    testConfig.MasterPodLabelValue ≠ "" ∧
    setCurrentMaster twoAddressNet healthyCluster testConfig ["valkey-primary", "6379"]
        testPods =
      Outcome.returned
        (passCalls twoAddressNet testConfig { addr := 183763205 } healthyCluster.updateOk
          testPods)
        (passPods twoAddressNet testConfig { addr := 183763205 } healthyCluster.updateOk
          testPods) :=
  ⟨by rfl, by decide,
    (only_first_resolved_address_matches twoAddressNet healthyCluster testConfig
      "valkey-primary" "6379" [] { addr := 183763205 } [{ addr := 183763206 }] testPods
      (by rfl) (by rfl) (by rfl) (by rfl) (by decide)).1⟩

end ValkeyReconciler
